import Mathlib

/-!
Shallow embedding of the opic-backend Express handlers.

The repository is a family of near-duplicate Express servers.  Each
definition below is translated from one concrete handler in the source:

* `askRun`        — the `/ask`,`/api/ask` handler shared by the main
  server variants (`content = (prompt ?? question)?.toString().trim()`,
  400 when falsy, otherwise one chat-completion call and a 200 `{answer}`).
* `didLoop1` / `speakHandler1` — the attempt-counted `/speak` handler
  (24 polls, `sleep(1250)` between polls).
* `didLoop3` / `speakToVideoUrl` / `speakHandler3` — the time-bounded
  variant (`while (Date.now() - start < 45000) { await sleep(900); ... }`,
  errors thrown and caught by a generic 500 handler).
* `ttsInsert`, `ttsHandle` — the md5-keyed audio cache with
  oldest-insertion eviction (`ttsCache.set` + `keys().next()` delete).
* `resolveVoice1`, `resolveVoice4` — the voice allow-list fallbacks.
* `parseRange`, `mediaGet` — the `/media/tts/:id` Range handling
  (`/^bytes=(\d*)-(\d*)$/`, 206/416/200 logic).

Vendor HTTP exchanges are modelled by explicit response values
(`VendorResp`): the `ok` flag, numeric status, and the JSON parse result
of the body.  Wall-clock time in the time-bounded loop is modelled by a
function `times : Nat → Nat` giving the elapsed milliseconds observed at
the k-th loop-condition check; `sleep(900)` guarantees `900 * k ≤ times k`.
Audio buffers are byte lists; the md5 content hash `ttsKey` is modelled
by the (injective) preimage string `voice ++ "|" ++ text`.  JavaScript
string helpers (`trim`, `toLowerCase`) are modelled over the character
list of the string so that they evaluate by kernel reduction.
-/

/-- JavaScript `String.prototype.trim`, over the character list. -/
def jsTrim (s : String) : String :=
  ⟨((s.data.dropWhile Char.isWhitespace).reverse.dropWhile Char.isWhitespace).reverse⟩

/-- JavaScript `String.prototype.toLowerCase`, over the character list. -/
def jsLower (s : String) : String :=
  ⟨s.data.map Char.toLower⟩

/-- A JavaScript value as far as the `/ask` body destructuring cares:
`undefined`, `null`, or a string. -/
inductive JsVal where
  | undef
  | null
  | str (s : String)
deriving Repr, DecidableEq

/-- JavaScript nullish coalescing `p ?? q`. -/
def coalesce (p q : JsVal) : JsVal :=
  match p with
  | .undef => q
  | .null => q
  | v => v

/-- `(prompt ?? question)?.toString().trim()`: `none` models `undefined`
(the optional chain on a nullish receiver). -/
def contentOf (prompt question : JsVal) : Option String :=
  match coalesce prompt question with
  | .str s => some (jsTrim s)
  | _ => none

/-- Whether a body field is a string that is non-empty after trimming
(the predicate the claim quantifies over). -/
def nonEmptyAfterTrim (v : JsVal) : Bool :=
  match v with
  | .str s => decide (jsTrim s ≠ "")
  | _ => false

/-- Response of the `/ask` handler. -/
structure AskResp where
  status : Nat
  answer : Option String
  errTag : Option String
deriving Repr, DecidableEq

/-- The `/ask`,`/api/ask` handler of the main server variants, given the
answer the chat-completion vendor would return.  The second component
counts chat-completion calls issued. -/
def askRun (prompt question : JsVal) (vendorAnswer : String) : AskResp × Nat :=
  match contentOf prompt question with
  | none => (⟨400, none, some "question required"⟩, 0)
  | some c =>
    if c = "" then (⟨400, none, some "question required"⟩, 0)
    else (⟨200, some vendorAnswer, none⟩, 1)

/-- Claim C1, counterexample: the body `{prompt: "", question: "hi"}`
contains a question field that is non-empty after trimming, yet the
handler answers 400 (the nullish coalescing picks the empty `prompt`),
so the 200 branch claimed for "such content present" does not happen. -/
theorem ask_claim_counterexample :
    nonEmptyAfterTrim (JsVal.str "hi") = true ∧
    (askRun (JsVal.str "") (JsVal.str "hi") "ok").1.status = 400 ∧
    (askRun (JsVal.str "") (JsVal.str "hi") "ok").1.status ≠ 200 ∧
    (askRun (JsVal.str "") (JsVal.str "hi") "ok").2 = 0 := by
  refine ⟨by decide, rfl, by decide, rfl⟩

/-- Claim C1, amended: the handler keys on the coalesced value
(`prompt` unless nullish, else `question`).  When that value is absent
or empty after string conversion and trimming the handler answers 400
without a vendor call; when it is non-empty the handler answers 200
with `{answer}` after exactly one vendor call. -/
theorem ask_content_amended (p q : JsVal) (ans : String) :
    ((contentOf p q).getD "" = "" →
      (askRun p q ans).1.status = 400 ∧ (askRun p q ans).2 = 0) ∧
    (∀ c, contentOf p q = some c → c ≠ "" →
      (askRun p q ans).1.status = 200 ∧
      (askRun p q ans).1.answer = some ans ∧ (askRun p q ans).2 = 1) := by
  constructor
  · intro h
    cases hc : contentOf p q with
    | none => simp [askRun, hc]
    | some c =>
      rw [hc] at h
      simp only [Option.getD] at h
      subst h
      simp [askRun, hc]
  · intro c hc hne
    simp [askRun, hc, hne]

/-- Witness for `ask_content_amended` at concrete inputs. -/
theorem ask_content_amended_witness :
    (askRun (JsVal.str "hello") JsVal.undef "ok").1.status = 200 ∧
    (askRun (JsVal.str "hello") JsVal.undef "ok").1.answer = some "ok" ∧
    (askRun (JsVal.str "hello") JsVal.undef "ok").2 = 1 :=
  (ask_content_amended (JsVal.str "hello") JsVal.undef "ok").2 "hello" (by decide) (by decide)

/-- JavaScript truthiness of an optional string field (`undefined` and
the empty string are falsy). -/
def truthy : Option String → Bool
  | none => false
  | some s => decide (s ≠ "")

/-- JSON shape of a D-ID talk object, as far as the handlers inspect it. -/
structure DidTalk where
  id : Option String
  result_url : Option String
  status : Option String
deriving Repr, DecidableEq

/-- A vendor HTTP exchange as the handlers observe it: the `ok` flag,
the numeric status, and the JSON parse result of the response text
(`none` models a parse failure). -/
structure VendorResp where
  ok : Bool
  status : Nat
  json : Option DidTalk
deriving Repr, DecidableEq

/-- `for (let i = 0; i < 24; i++)` in the attempt-counted `/speak`. -/
def POLL_ATTEMPTS : Nat := 24

/-- `await sleep(1250)` before every poll in the attempt-counted loop. -/
def POLL_SLEEP_MS : Nat := 1250

/-- `await sleep(900)` in the `speakToVideoUrl` loop. -/
def SPEAK3_SLEEP_MS : Nat := 900

/-- `while (Date.now() - start < 45000)` budget of `speakToVideoUrl`. -/
def SPEAK3_BUDGET_MS : Nat := 45000

/-- Fuel for the time-bounded loop model.  Each iteration advances the
elapsed time by at least `SPEAK3_SLEEP_MS`, so under
`SPEAK3_SLEEP_MS * k ≤ times k` the loop condition fails by the 51st
check and the fuel is never exhausted. -/
def LOOP3_FUEL : Nat := 51

/-- Exit reasons of the attempt-counted poll loop. -/
inductive Outcome where
  | success (url : String)
  | pollHttp (status : Nat)
  | pollNotJson
  | renderErr
  | timeout
deriving Repr, DecidableEq

/-- Errors thrown by `speakToVideoUrl` (caught by the `/speak` handler). -/
inductive DidErr where
  | noKey
  | noImage
  | createHttp (status : Nat)
  | createNotJson
  | createNoId
  | pollHttp (status : Nat)
  | pollNotJson
  | renderErr
  | timeout
  | fuelOut
deriving Repr, DecidableEq

/-- Response of a `/speak` handler: HTTP status, the `error` tag of the
JSON body, the `videoUrl` field, and (part_003 variant) the `detail`
message of a caught exception. -/
structure SpeakResp where
  status : Nat
  errTag : String
  videoUrl : Option String
  detail : Option DidErr
deriving Repr, DecidableEq

/-- The attempt-counted poll loop body of `/speak` (part_001/part_002):
each iteration polls once; exits on non-OK poll, non-JSON body,
`result_url` present, or `status === 'error'`; otherwise loops, and
after the final iteration the `videoUrl` is still null.  The second
component counts the poll requests issued. -/
def didLoop1 (polls : Nat → VendorResp) : Nat → Nat → Outcome × Nat
  | _, 0 => (.timeout, 0)
  | i, fuel + 1 =>
    let p := polls i
    if p.ok = false then (.pollHttp p.status, 1)
    else
      match p.json with
      | none => (.pollNotJson, 1)
      | some d =>
        match d.result_url with
        | some u => (.success u, 1)
        | none =>
          if d.status = some "error" then (.renderErr, 1)
          else
            let r := didLoop1 polls (i + 1) fuel
            (r.1, r.2 + 1)

/-- Map a loop outcome to the response the attempt-counted handler sends. -/
def outcomeResp : Outcome → SpeakResp
  | .success u => ⟨200, "", some u, none⟩
  | .pollHttp st => ⟨st, "did_poll_failed", none, none⟩
  | .pollNotJson => ⟨502, "did_poll_not_json", none, none⟩
  | .renderErr => ⟨502, "render_error", none, none⟩
  | .timeout => ⟨504, "timeout", none, none⟩

/-- The attempt-counted `/speak`,`/api/speak` handler (part_001,
part_002 variants): input checks, D-ID create, then the 24-poll loop. -/
def speakHandler1 (text imageUrl : Option String) (hasKey : Bool)
    (create : VendorResp) (polls : Nat → VendorResp) : SpeakResp × Nat :=
  if truthy text = false ∨ truthy imageUrl = false then
    (⟨400, "text and imageUrl required", none, none⟩, 0)
  else if hasKey = false then (⟨500, "did_api_key_missing", none, none⟩, 0)
  else if create.ok = false then
    (⟨create.status, "did_create_failed", none, none⟩, 0)
  else
    match create.json with
    | none => (⟨502, "did_create_not_json", none, none⟩, 0)
    | some c =>
      match c.id with
      | none => (⟨502, "create_failed", none, none⟩, 0)
      | some _ =>
        let r := didLoop1 polls 0 POLL_ATTEMPTS
        (outcomeResp r.1, r.2)

/-- The time-bounded poll loop of `speakToVideoUrl` (part_003):
`while (Date.now() - start < 45000) { await sleep(900); poll; ... }`.
`times k` is the elapsed time observed at the k-th condition check; the
fuel (`LOOP3_FUEL` at the call site) only bounds the model's recursion
and is unreachable when `SPEAK3_SLEEP_MS * k ≤ times k`.  The second
component counts the poll requests issued. -/
def didLoop3 (polls : Nat → VendorResp) (times : Nat → Nat) :
    Nat → Nat → Except DidErr String × Nat
  | k, 0 =>
    if times k < SPEAK3_BUDGET_MS then (.error .fuelOut, 0)
    else (.error .timeout, 0)
  | k, fuel + 1 =>
    if times k < SPEAK3_BUDGET_MS then
      let p := polls k
      if p.ok = false then (.error (.pollHttp p.status), 1)
      else
        match p.json with
        | none => (.error .pollNotJson, 1)
        | some d =>
          match d.result_url with
          | some u => (.ok u, 1)
          | none =>
            if d.status = some "error" then (.error .renderErr, 1)
            else
              let r := didLoop3 polls times (k + 1) fuel
              (r.1, r.2 + 1)
    else (.error .timeout, 0)

/-- `speakToVideoUrl` (part_003): key and avatar checks, D-ID create,
then the time-bounded poll loop.  Every failure is a thrown error. -/
def speakToVideoUrl (hasKey : Bool) (imageUrl : Option String)
    (create : VendorResp) (polls : Nat → VendorResp) (times : Nat → Nat) :
    Except DidErr String × Nat :=
  if hasKey = false then (.error .noKey, 0)
  else if truthy imageUrl = false then (.error .noImage, 0)
  else if create.ok = false then (.error (.createHttp create.status), 0)
  else
    match create.json with
    | none => (.error .createNotJson, 0)
    | some c =>
      match c.id with
      | none => (.error .createNoId, 0)
      | some _ => didLoop3 polls times 0 LOOP3_FUEL

/-- The part_003 `/speak` handler's translation of `speakToVideoUrl`'s
result: a 200 `{videoUrl}` on success, otherwise the generic catch
responds 500 `{error:'server_error', detail}`. -/
def speakRespOf : Except DidErr String × Nat → SpeakResp × Nat
  | (.ok u, n) => (⟨200, "", some u, none⟩, n)
  | (.error e, n) => (⟨500, "server_error", none, some e⟩, n)

/-- The `/speak`,`/api/speak` handler of the part_003 variant. -/
def speakHandler3 (text imageUrl : Option String) (hasKey : Bool)
    (create : VendorResp) (polls : Nat → VendorResp) (times : Nat → Nat) :
    SpeakResp × Nat :=
  if truthy text = false ∨ truthy imageUrl = false then
    (⟨400, "text and imageUrl required", none, none⟩, 0)
  else speakRespOf (speakToVideoUrl hasKey imageUrl create polls times)

/-- A poll response that lets the loop continue: HTTP OK, JSON body,
no `result_url`, and a `status` field other than `'error'`. -/
def Inconclusive (p : VendorResp) : Prop :=
  p.ok = true ∧ ∃ d, p.json = some d ∧ d.result_url = none ∧ d.status ≠ some "error"

theorem didLoop1_zero (polls : Nat → VendorResp) (i : Nat) :
    didLoop1 polls i 0 = (.timeout, 0) := rfl

theorem didLoop1_step (polls : Nat → VendorResp) (i fuel : Nat)
    (h : Inconclusive (polls i)) :
    didLoop1 polls i (fuel + 1) =
      ((didLoop1 polls (i + 1) fuel).1, (didLoop1 polls (i + 1) fuel).2 + 1) := by
  obtain ⟨hok, d, hj, hr, hs⟩ := h
  simp [didLoop1, hok, hj, hr, hs]

theorem didLoop1_skip (polls : Nat → VendorResp) (k : Nat) :
    ∀ i fuel, k ≤ fuel → (∀ j, j < k → Inconclusive (polls (i + j))) →
    didLoop1 polls i fuel =
      ((didLoop1 polls (i + k) (fuel - k)).1,
        (didLoop1 polls (i + k) (fuel - k)).2 + k) := by
  induction k with
  | zero => intro i fuel _ _; simp
  | succ k ih =>
    intro i fuel hk hinc
    obtain ⟨f, rfl⟩ : ∃ f, fuel = f + 1 := ⟨fuel - 1, by omega⟩
    rw [didLoop1_step polls i f (by simpa using hinc 0 (Nat.succ_pos k))]
    rw [ih (i + 1) f (by omega)
      (fun j hj => by
        have h := hinc (j + 1) (by omega)
        have : i + 1 + j = i + (j + 1) := by omega
        rwa [this])]
    have h1 : i + 1 + k = i + (k + 1) := by omega
    have h2 : f - k = f + 1 - (k + 1) := by omega
    rw [h1, h2]
    have h3 : ∀ n : Nat, n + k + 1 = n + (k + 1) := fun n => by omega
    rw [h3]

theorem didLoop1_count_le (polls : Nat → VendorResp) :
    ∀ fuel i, (didLoop1 polls i fuel).2 ≤ fuel := by
  intro fuel
  induction fuel with
  | zero => intro i; simp [didLoop1]
  | succ fuel ih =>
    intro i
    have hrec := ih (i + 1)
    unfold didLoop1
    cases hok : (polls i).ok with
    | false => simp [hok]
    | true =>
      simp only [hok]
      cases hj : (polls i).json with
      | none => simp
      | some d =>
        simp only []
        cases hr : d.result_url with
        | some u => simp [hr]
        | none =>
          by_cases hs : d.status = some "error"
          · simp [hr, hs]
          · simp only [hr, hs, if_false]
            simp
            omega

theorem didLoop3_step (polls : Nat → VendorResp) (times : Nat → Nat) (k fuel : Nat)
    (ht : times k < SPEAK3_BUDGET_MS) (h : Inconclusive (polls k)) :
    didLoop3 polls times k (fuel + 1) =
      ((didLoop3 polls times (k + 1) fuel).1,
        (didLoop3 polls times (k + 1) fuel).2 + 1) := by
  obtain ⟨hok, d, hj, hr, hs⟩ := h
  simp [didLoop3, ht, hok, hj, hr, hs]

theorem didLoop3_stop (polls : Nat → VendorResp) (times : Nat → Nat) (k fuel : Nat)
    (ht : ¬ times k < SPEAK3_BUDGET_MS) :
    didLoop3 polls times k fuel = (.error .timeout, 0) := by
  cases fuel <;> simp [didLoop3, ht]

theorem didLoop3_skip (polls : Nat → VendorResp) (times : Nat → Nat) (m : Nat) :
    ∀ k fuel, m ≤ fuel →
    (∀ j, j < m → Inconclusive (polls (k + j)) ∧ times (k + j) < SPEAK3_BUDGET_MS) →
    didLoop3 polls times k fuel =
      ((didLoop3 polls times (k + m) (fuel - m)).1,
        (didLoop3 polls times (k + m) (fuel - m)).2 + m) := by
  induction m with
  | zero => intro k fuel _ _; simp
  | succ m ih =>
    intro k fuel hm hpre
    obtain ⟨f, rfl⟩ : ∃ f, fuel = f + 1 := ⟨fuel - 1, by omega⟩
    have h0 := hpre 0 (Nat.succ_pos m)
    rw [didLoop3_step polls times k f (by simpa using h0.2) (by simpa using h0.1)]
    rw [ih (k + 1) f (by omega)
      (fun j hj => by
        have h := hpre (j + 1) (by omega)
        have he : k + 1 + j = k + (j + 1) := by omega
        rwa [he])]
    have h1 : k + 1 + m = k + (m + 1) := by omega
    have h2 : f - m = f + 1 - (m + 1) := by omega
    rw [h1, h2]
    have h3 : ∀ n : Nat, n + m + 1 = n + (m + 1) := fun n => by omega
    rw [h3]

theorem didLoop3_timeout (polls : Nat → VendorResp) (times : Nat → Nat)
    (h900 : ∀ j, SPEAK3_SLEEP_MS * j ≤ times j)
    (hinc : ∀ j, Inconclusive (polls j)) :
    ∀ fuel k, 50 ≤ k + fuel → (didLoop3 polls times k fuel).1 = .error .timeout := by
  intro fuel
  induction fuel with
  | zero =>
    intro k hk
    have h := h900 k
    have ht : ¬ times k < SPEAK3_BUDGET_MS := by
      simp only [SPEAK3_SLEEP_MS] at h
      simp only [SPEAK3_BUDGET_MS]
      omega
    rw [didLoop3_stop polls times k 0 ht]
  | succ fuel ih =>
    intro k hk
    by_cases ht : times k < SPEAK3_BUDGET_MS
    · rw [didLoop3_step polls times k fuel ht (hinc k)]
      exact ih (k + 1) (by omega)
    · rw [didLoop3_stop polls times k (fuel + 1) ht]

theorem didLoop3_succ_count (polls : Nat → VendorResp) (times : Nat → Nat) (K F : Nat) :
    (didLoop3 polls times K (F + 1)).2 = 0 ∨ (didLoop3 polls times K (F + 1)).2 = 1 ∨
    (didLoop3 polls times K (F + 1)).2 = (didLoop3 polls times (K + 1) F).2 + 1 := by
  by_cases hT : times K < SPEAK3_BUDGET_MS
  · cases hok : (polls K).ok with
    | false => right; left; simp [didLoop3, hT, hok]
    | true =>
      cases hjn : (polls K).json with
      | none => right; left; simp [didLoop3, hT, hok, hjn]
      | some d =>
        cases hr : d.result_url with
        | some u => right; left; simp [didLoop3, hT, hok, hjn, hr]
        | none =>
          by_cases hs : d.status = some "error"
          · right; left; simp [didLoop3, hT, hok, hjn, hr, hs]
          · right; right; simp [didLoop3, hT, hok, hjn, hr, hs]
  · left; simp [didLoop3, hT]

theorem didLoop3_budget (polls : Nat → VendorResp) (times : Nat → Nat) :
    ∀ fuel k j, j < (didLoop3 polls times k fuel).2 →
      times (k + j) < SPEAK3_BUDGET_MS := by
  intro fuel
  induction fuel with
  | zero =>
    intro k j hj
    have : (didLoop3 polls times k 0).2 = 0 := by
      by_cases ht : times k < SPEAK3_BUDGET_MS <;> simp [didLoop3, ht]
    omega
  | succ fuel ih =>
    intro k j hj
    by_cases ht : times k < SPEAK3_BUDGET_MS
    · rcases Nat.eq_zero_or_pos j with hz | hpos
      · subst hz; simpa using ht
      · obtain ⟨j1, rfl⟩ : ∃ j1, j = j1 + 1 := ⟨j - 1, by omega⟩
        rcases didLoop3_succ_count polls times k fuel with h0 | h1 | hrec
        · omega
        · omega
        · have hj1 : j1 < (didLoop3 polls times (k + 1) fuel).2 := by omega
          have := ih (k + 1) j1 hj1
          have he : k + 1 + j1 = k + (j1 + 1) := by omega
          rwa [he] at this
    · rw [didLoop3_stop polls times k (fuel + 1) ht] at hj
      simp at hj

theorem speakRespOf_snd (x : Except DidErr String × Nat) : (speakRespOf x).2 = x.2 := by
  rcases x with ⟨e, n⟩
  cases e <;> rfl

theorem speakHandler1_loop (text imageUrl : Option String) (create : VendorResp)
    (polls : Nat → VendorResp) (c : DidTalk) (ident : String)
    (htext : truthy text = true) (himg : truthy imageUrl = true)
    (hok : create.ok = true) (hjson : create.json = some c) (hid : c.id = some ident) :
    speakHandler1 text imageUrl true create polls =
      (outcomeResp (didLoop1 polls 0 POLL_ATTEMPTS).1,
        (didLoop1 polls 0 POLL_ATTEMPTS).2) := by
  simp [speakHandler1, htext, himg, hok, hjson, hid]

theorem speakHandler3_loop (text imageUrl : Option String) (create : VendorResp)
    (polls : Nat → VendorResp) (times : Nat → Nat) (c : DidTalk) (ident : String)
    (htext : truthy text = true) (himg : truthy imageUrl = true)
    (hok : create.ok = true) (hjson : create.json = some c) (hid : c.id = some ident) :
    speakHandler3 text imageUrl true create polls times =
      speakRespOf (didLoop3 polls times 0 LOOP3_FUEL) := by
  simp [speakHandler3, speakToVideoUrl, htext, himg, hok, hjson, hid]

theorem speakHandler1_count_le (text imageUrl : Option String) (hasKey : Bool)
    (create : VendorResp) (polls : Nat → VendorResp) :
    (speakHandler1 text imageUrl hasKey create polls).2 ≤ POLL_ATTEMPTS := by
  have h := didLoop1_count_le polls POLL_ATTEMPTS 0
  unfold speakHandler1
  repeat' split
  all_goals first | exact Nat.zero_le _ | exact h

theorem speakHandler3_count (text imageUrl : Option String) (hasKey : Bool)
    (create : VendorResp) (polls : Nat → VendorResp) (times : Nat → Nat) :
    (speakHandler3 text imageUrl hasKey create polls times).2 = 0 ∨
    (speakHandler3 text imageUrl hasKey create polls times).2 =
      (didLoop3 polls times 0 LOOP3_FUEL).2 := by
  unfold speakHandler3 speakToVideoUrl
  repeat' split
  all_goals first | exact Or.inl rfl | exact Or.inr (speakRespOf_snd _)

/-- Claim C2, counterexample: in the part_003 variant, a create that
succeeds followed by polls that never produce a `result_url` or an
`'error'` status exhausts the 45-second budget, and the handler answers
500 `{error:'server_error', detail:'did_timeout'}` — not 504. -/
theorem speak_timeout_claim_counterexample :
    (speakHandler3 (some "hi") (some "img") true
        ⟨true, 201, some ⟨some "talk1", none, none⟩⟩
        (fun _ => ⟨true, 200, some ⟨none, none, some "created"⟩⟩)
        (fun k => 900 * k)).1.status = 500 ∧
    (speakHandler3 (some "hi") (some "img") true
        ⟨true, 201, some ⟨some "talk1", none, none⟩⟩
        (fun _ => ⟨true, 200, some ⟨none, none, some "created"⟩⟩)
        (fun k => 900 * k)).1.detail = some DidErr.timeout ∧
    (speakHandler3 (some "hi") (some "img") true
        ⟨true, 201, some ⟨some "talk1", none, none⟩⟩
        (fun _ => ⟨true, 200, some ⟨none, none, some "created"⟩⟩)
        (fun k => 900 * k)).1.status ≠ 504 :=
  ⟨rfl, rfl, by decide⟩

/-- Claim C2, amended: when the create call succeeds and every poll is
inconclusive until the budget runs out, the attempt-counted handler
answers 504 `{error:'timeout'}` after its 24 polls, while the part_003
handler (whose loop throws `did_timeout`) answers 500
`{error:'server_error'}` with the timeout only in the `detail` field. -/
theorem speak_timeout_amended
    (text imageUrl : Option String) (create : VendorResp)
    (polls : Nat → VendorResp) (times : Nat → Nat) (c : DidTalk) (ident : String)
    (htext : truthy text = true) (himg : truthy imageUrl = true)
    (hok : create.ok = true) (hjson : create.json = some c) (hid : c.id = some ident)
    (hinc : ∀ k, Inconclusive (polls k))
    (h900 : ∀ k, SPEAK3_SLEEP_MS * k ≤ times k) :
    speakHandler1 text imageUrl true create polls =
      (⟨504, "timeout", none, none⟩, POLL_ATTEMPTS) ∧
    (speakHandler3 text imageUrl true create polls times).1 =
      ⟨500, "server_error", none, some DidErr.timeout⟩ := by
  constructor
  · rw [speakHandler1_loop text imageUrl create polls c ident htext himg hok hjson hid]
    rw [didLoop1_skip polls POLL_ATTEMPTS 0 POLL_ATTEMPTS (Nat.le_refl _)
      (fun j _ => by simpa using hinc j)]
    simp [didLoop1_zero, outcomeResp]
  · rw [speakHandler3_loop text imageUrl create polls times c ident htext himg hok hjson hid]
    have h1 := didLoop3_timeout polls times h900 hinc LOOP3_FUEL 0 (by simp [LOOP3_FUEL])
    rcases hr : didLoop3 polls times 0 LOOP3_FUEL with ⟨e, n⟩
    rw [hr] at h1
    simp at h1
    subst h1
    rfl

/-- Witness for `speak_timeout_amended` at concrete inputs. -/
theorem speak_timeout_amended_witness :
    speakHandler1 (some "hi") (some "img") true
        ⟨true, 201, some ⟨some "talk1", none, none⟩⟩
        (fun _ => ⟨true, 200, some ⟨none, none, some "created"⟩⟩) =
      (⟨504, "timeout", none, none⟩, POLL_ATTEMPTS) ∧
    (speakHandler3 (some "hi") (some "img") true
        ⟨true, 201, some ⟨some "talk1", none, none⟩⟩
        (fun _ => ⟨true, 200, some ⟨none, none, some "created"⟩⟩)
        (fun k => 900 * k)).1 =
      ⟨500, "server_error", none, some DidErr.timeout⟩ :=
  speak_timeout_amended (some "hi") (some "img")
    ⟨true, 201, some ⟨some "talk1", none, none⟩⟩
    (fun _ => ⟨true, 200, some ⟨none, none, some "created"⟩⟩)
    (fun k => 900 * k) ⟨some "talk1", none, none⟩ "talk1"
    (by decide) (by decide) rfl rfl rfl
    (fun k => ⟨rfl, ⟨none, none, some "created"⟩, rfl, rfl, by decide⟩)
    (fun k => Nat.le_refl _)

/-- Claim C3: the attempt-counted `/speak` handler issues at most 24
(`POLL_ATTEMPTS`) polls; the time-bounded variant only polls while the
observed elapsed time is below 45000 ms (`SPEAK3_BUDGET_MS`), so under
the `sleep(900)` lower bound on elapsed time it issues at most 50 polls
before giving up. -/
theorem poll_budget_bound (text imageUrl : Option String) (hasKey : Bool)
    (create : VendorResp) (polls : Nat → VendorResp) (times : Nat → Nat) :
    (speakHandler1 text imageUrl hasKey create polls).2 ≤ POLL_ATTEMPTS ∧
    (∀ j, j < (speakHandler3 text imageUrl hasKey create polls times).2 →
      times j < SPEAK3_BUDGET_MS) ∧
    ((∀ k, SPEAK3_SLEEP_MS * k ≤ times k) →
      (speakHandler3 text imageUrl hasKey create polls times).2 ≤ 50) := by
  have hbud : ∀ j, j < (speakHandler3 text imageUrl hasKey create polls times).2 →
      times j < SPEAK3_BUDGET_MS := by
    intro j hj
    rcases speakHandler3_count text imageUrl hasKey create polls times with h0 | heq
    · omega
    · rw [heq] at hj
      have := didLoop3_budget polls times LOOP3_FUEL 0 j hj
      simpa using this
  refine ⟨speakHandler1_count_le text imageUrl hasKey create polls, hbud, ?_⟩
  intro h900
  by_contra hgt
  push_neg at hgt
  have h50 : times 50 < SPEAK3_BUDGET_MS := hbud 50 (by omega)
  have h9 := h900 50
  simp only [SPEAK3_SLEEP_MS] at h9
  simp only [SPEAK3_BUDGET_MS] at h50
  omega

/-- Witness for `poll_budget_bound` at concrete inputs. -/
theorem poll_budget_bound_witness :
    (speakHandler3 (some "hi") (some "img") true
        ⟨true, 201, some ⟨some "talk1", none, none⟩⟩
        (fun _ => ⟨true, 200, some ⟨none, none, some "created"⟩⟩)
        (fun k => 900 * k)).2 ≤ 50 :=
  (poll_budget_bound (some "hi") (some "img") true
      ⟨true, 201, some ⟨some "talk1", none, none⟩⟩
      (fun _ => ⟨true, 200, some ⟨none, none, some "created"⟩⟩)
      (fun k => 900 * k)).2.2 (fun _ => Nat.le_refl _)

/-- Claim C4: with the create call succeeded and the first `k` polls
inconclusive, a k-th poll that carries a `result_url` makes either
handler return that URL after exactly `k + 1` polls, and a k-th poll
with `status === 'error'` makes either handler report the vendor error
after exactly `k + 1` polls; no further poll is issued in either case. -/
theorem poll_first_exit
    (text imageUrl : Option String) (create : VendorResp) (polls : Nat → VendorResp)
    (times : Nat → Nat) (c d : DidTalk) (ident : String) (k : Nat)
    (htext : truthy text = true) (himg : truthy imageUrl = true)
    (hok : create.ok = true) (hjson : create.json = some c) (hid : c.id = some ident)
    (hpre : ∀ j, j < k → Inconclusive (polls j))
    (hkok : (polls k).ok = true) (hkj : (polls k).json = some d) :
    (k < POLL_ATTEMPTS →
      (∀ u, d.result_url = some u →
        speakHandler1 text imageUrl true create polls =
          (⟨200, "", some u, none⟩, k + 1)) ∧
      (d.result_url = none → d.status = some "error" →
        speakHandler1 text imageUrl true create polls =
          (⟨502, "render_error", none, none⟩, k + 1))) ∧
    ((∀ j, j ≤ k → times j < SPEAK3_BUDGET_MS) →
      (∀ j, SPEAK3_SLEEP_MS * j ≤ times j) →
      (∀ u, d.result_url = some u →
        speakHandler3 text imageUrl true create polls times =
          (⟨200, "", some u, none⟩, k + 1)) ∧
      (d.result_url = none → d.status = some "error" →
        speakHandler3 text imageUrl true create polls times =
          (⟨500, "server_error", none, some DidErr.renderErr⟩, k + 1))) := by
  constructor
  · intro hk
    have hskip := didLoop1_skip polls k 0 POLL_ATTEMPTS (Nat.le_of_lt hk)
      (fun j hj => by simpa using hpre j hj)
    obtain ⟨m, hm⟩ : ∃ m, POLL_ATTEMPTS - k = m + 1 :=
      ⟨POLL_ATTEMPTS - k - 1, by simp only [POLL_ATTEMPTS] at hk ⊢; omega⟩
    rw [speakHandler1_loop text imageUrl create polls c ident htext himg hok hjson hid,
      hskip]
    simp only [Nat.zero_add, hm]
    constructor
    · intro u hu
      simp [didLoop1, hkok, hkj, hu, outcomeResp, Nat.add_comm]
    · intro hr hs
      simp [didLoop1, hkok, hkj, hr, hs, outcomeResp, Nat.add_comm]
  · intro htimes h900
    have hb := htimes k (Nat.le_refl k)
    have h9 := h900 k
    simp only [SPEAK3_BUDGET_MS] at hb
    simp only [SPEAK3_SLEEP_MS] at h9
    have hk51 : k ≤ LOOP3_FUEL := by
      simp only [LOOP3_FUEL]
      omega
    have hskip := didLoop3_skip polls times k 0 LOOP3_FUEL hk51
      (fun j hj => by
        refine ⟨by simpa using hpre j hj, by simpa using htimes j (Nat.le_of_lt hj)⟩)
    obtain ⟨m, hm⟩ : ∃ m, LOOP3_FUEL - k = m + 1 :=
      ⟨LOOP3_FUEL - k - 1, by
        simp only [LOOP3_FUEL]
        omega⟩
    have htk : times k < SPEAK3_BUDGET_MS := htimes k (Nat.le_refl k)
    rw [speakHandler3_loop text imageUrl create polls times c ident htext himg hok
      hjson hid, hskip]
    simp only [Nat.zero_add, hm]
    constructor
    · intro u hu
      simp [didLoop3, htk, hkok, hkj, hu, speakRespOf, Nat.add_comm]
    · intro hr hs
      simp [didLoop3, htk, hkok, hkj, hr, hs, speakRespOf, Nat.add_comm]

/-- Witness for `poll_first_exit` at concrete inputs. -/
theorem poll_first_exit_witness :
    speakHandler1 (some "hi") (some "img") true
        ⟨true, 201, some ⟨some "talk1", none, none⟩⟩
        (fun i => if i = 2 then ⟨true, 200, some ⟨none, some "http://v.mp4", none⟩⟩
          else ⟨true, 200, some ⟨none, none, some "created"⟩⟩) =
      (⟨200, "", some "http://v.mp4", none⟩, 3) :=
  ((poll_first_exit (some "hi") (some "img")
      ⟨true, 201, some ⟨some "talk1", none, none⟩⟩
      (fun i => if i = 2 then ⟨true, 200, some ⟨none, some "http://v.mp4", none⟩⟩
        else ⟨true, 200, some ⟨none, none, some "created"⟩⟩)
      (fun k => 900 * k) ⟨some "talk1", none, none⟩
      ⟨none, some "http://v.mp4", none⟩ "talk1" 2
      (by decide) (by decide) rfl rfl rfl
      (fun j hj => by
        interval_cases j <;>
          exact ⟨rfl, ⟨none, none, some "created"⟩, rfl, rfl, by decide⟩)
      rfl rfl).1 (by decide)).1 "http://v.mp4" rfl

/-- An upstream transcription exchange as the `/stt` handler observes
it: the `ok` flag, numeric status, raw response text, and the `text`
field of the parsed JSON body when the response was JSON. -/
structure UpstreamResp where
  ok : Bool
  status : Nat
  raw : String
  textField : Option String
deriving Repr, DecidableEq

/-- The `/stt`,`/api/stt` handler (part_004 and server.js variants):
key and file checks, then the transcription upload; a non-OK upstream
response is relayed with the upstream status and raw body. -/
def sttHandler (hasKey hasFile : Bool) (up : UpstreamResp) : Nat × String :=
  if hasKey = false then (500, "openai_api_key_missing")
  else if hasFile = false then (400, "no_file")
  else if up.ok = false then (up.status, up.raw)
  else (200, up.textField.getD "")

/-- Claim C7, counterexample: the part_003 `/speak` handler does not
relay a non-OK D-ID create status — `speakToVideoUrl` throws and the
catch-all responds 500, here for a vendor 418. -/
theorem vendor_relay_counterexample :
    (speakHandler3 (some "hi") (some "img") true ⟨false, 418, none⟩
        (fun _ => ⟨true, 200, none⟩) (fun k => 900 * k)).1.status = 500 ∧
    (speakHandler3 (some "hi") (some "img") true ⟨false, 418, none⟩
        (fun _ => ⟨true, 200, none⟩) (fun k => 900 * k)).1.detail =
      some (DidErr.createHttp 418) ∧
    (speakHandler3 (some "hi") (some "img") true ⟨false, 418, none⟩
        (fun _ => ⟨true, 200, none⟩) (fun k => 900 * k)).1.status ≠ 418 :=
  ⟨rfl, rfl, by decide⟩

/-- Claim C7, amended: the attempt-counted `/speak` handler relays a
non-OK D-ID create or poll status verbatim, and the `/stt` handler
relays a non-OK upstream status verbatim; the part_003 `/speak` handler
is the exception — its vendor failures are thrown and collapsed to a
local 500. -/
theorem vendor_relay_amended
    (text imageUrl : Option String) (create : VendorResp) (polls : Nat → VendorResp)
    (up : UpstreamResp) (k : Nat)
    (htext : truthy text = true) (himg : truthy imageUrl = true) :
    (create.ok = false →
      (speakHandler1 text imageUrl true create polls).1.status = create.status ∧
      (speakHandler1 text imageUrl true create polls).1.errTag = "did_create_failed") ∧
    (∀ c ident, create.ok = true → create.json = some c → c.id = some ident →
      (∀ j, j < k → Inconclusive (polls j)) → k < POLL_ATTEMPTS →
      (polls k).ok = false →
      (speakHandler1 text imageUrl true create polls).1.status = (polls k).status ∧
      (speakHandler1 text imageUrl true create polls).1.errTag = "did_poll_failed") ∧
    (up.ok = false → sttHandler true true up = (up.status, up.raw)) := by
  refine ⟨?_, ?_, ?_⟩
  · intro hbad
    constructor <;> simp [speakHandler1, htext, himg, hbad]
  · intro c ident hok hjson hid hpre hk hbad
    have hskip := didLoop1_skip polls k 0 POLL_ATTEMPTS (Nat.le_of_lt hk)
      (fun j hj => by simpa using hpre j hj)
    obtain ⟨m, hm⟩ : ∃ m, POLL_ATTEMPTS - k = m + 1 :=
      ⟨POLL_ATTEMPTS - k - 1, by simp only [POLL_ATTEMPTS] at hk ⊢; omega⟩
    rw [speakHandler1_loop text imageUrl create polls c ident htext himg hok hjson hid,
      hskip]
    simp only [Nat.zero_add, hm]
    constructor <;> simp [didLoop1, hbad, outcomeResp]
  · intro hbad
    simp [sttHandler, hbad]

/-- Witness for `vendor_relay_amended` at concrete inputs. -/
theorem vendor_relay_amended_witness :
    (speakHandler1 (some "hi") (some "img") true ⟨false, 429, none⟩
        (fun _ => ⟨true, 200, none⟩)).1.status = 429 ∧
    sttHandler true true ⟨false, 413, "too large", none⟩ = (413, "too large") :=
  ⟨((vendor_relay_amended (some "hi") (some "img") ⟨false, 429, none⟩
      (fun _ => ⟨true, 200, none⟩) ⟨false, 413, "too large", none⟩ 0
      (by decide) (by decide)).1 rfl).1,
    (vendor_relay_amended (some "hi") (some "img") ⟨false, 429, none⟩
      (fun _ => ⟨true, 200, none⟩) ⟨false, 413, "too large", none⟩ 0
      (by decide) (by decide)).2.2 rfl⟩

/-- The md5 cache key of part_001's ttsCache, modelled by its preimage
`voice + '|' + text` (md5 is injective in the model). -/
def ttsKey (text voice : String) : String := voice ++ "|" ++ text

/-- Default of `TTS_CACHE_LIMIT` (`Number(process.env.TTS_CACHE_LIMIT || 100)`). -/
def TTS_CACHE_LIMIT_DEFAULT : Nat := 100

/-- `Map.prototype.get`, on the insertion-ordered association list. -/
def lookupKey {β : Type} : List (String × β) → String → Option β
  | [], _ => none
  | p :: rest, k => if p.1 = k then some p.2 else lookupKey rest k

/-- `Map.prototype.set`: replace in place when the key exists, else
append at the end of the insertion order. -/
def mapSet {β : Type} (c : List (String × β)) (k : String) (v : β) :
    List (String × β) :=
  if c.any (fun p => decide (p.1 = k)) then
    c.map (fun p => if p.1 = k then (k, v) else p)
  else c ++ [(k, v)]

/-- The insert of part_001's ttsCache:
`ttsCache.set(key, buf); if (ttsCache.size > TTS_CACHE_LIMIT) delete oldest`. -/
def ttsInsert {β : Type} (limit : Nat) (c : List (String × β)) (k : String) (v : β) :
    List (String × β) :=
  let c1 := mapSet c k v
  if limit < c1.length then c1.tail else c1

theorem lookupKey_none_iff_any {β : Type} (c : List (String × β)) (k : String) :
    lookupKey c k = none ↔ c.any (fun p => decide (p.1 = k)) = false := by
  induction c with
  | nil => simp [lookupKey]
  | cons p rest ih =>
    by_cases hp : p.1 = k
    · simp [lookupKey, hp]
    · simp [lookupKey, hp, ih]

theorem lookupKey_append {β : Type} (c l : List (String × β)) (k : String)
    (h : lookupKey c k = none) : lookupKey (c ++ l) k = lookupKey l k := by
  induction c with
  | nil => simp
  | cons p rest ih =>
    by_cases hp : p.1 = k
    · simp [lookupKey, hp] at h
    · simp [lookupKey, hp] at h ⊢
      exact ih h

theorem mapSet_pos {β : Type} (c : List (String × β)) (k : String) (v : β)
    (h : c.any (fun p => decide (p.1 = k)) = true) :
    mapSet c k v = c.map (fun p => if p.1 = k then (k, v) else p) := by
  unfold mapSet
  rw [if_pos h]

theorem mapSet_neg {β : Type} (c : List (String × β)) (k : String) (v : β)
    (h : c.any (fun p => decide (p.1 = k)) = false) :
    mapSet c k v = c ++ [(k, v)] := by
  unfold mapSet
  rw [if_neg (by simp [h])]

/-- Claim C5: starting from a cache within its capacity, a completed
insert leaves at most `limit` entries, and when the insert overflows
the capacity the entry removed is the head of the insertion order (the
oldest), the new entry going to the back. -/
theorem tts_cache_capacity {β : Type} (limit : Nat) (c : List (String × β))
    (k : String) (v : β) (hlen : c.length ≤ limit) :
    (ttsInsert limit c k v).length ≤ limit ∧
    (c.any (fun p => decide (p.1 = k)) = false → c.length = limit → 0 < limit →
      ttsInsert limit c k v = c.tail ++ [(k, v)]) := by
  constructor
  · unfold ttsInsert
    cases hmem : c.any (fun p => decide (p.1 = k)) with
    | true =>
      rw [mapSet_pos c k v hmem]
      have hmaplen : (c.map (fun p => if p.1 = k then (k, v) else p)).length =
          c.length := List.length_map _ _
      rw [if_neg (by omega)]
      omega
    | false =>
      rw [mapSet_neg c k v hmem]
      have happ : (c ++ [(k, v)]).length = c.length + 1 := by simp
      by_cases hover : limit < (c ++ [(k, v)]).length
      · rw [if_pos hover]
        have := List.length_tail (c ++ [(k, v)])
        omega
      · rw [if_neg hover]
        omega
  · intro hmem hfull hpos
    obtain ⟨p, rest, rfl⟩ : ∃ p rest, c = p :: rest := by
      cases c with
      | nil => simp at hfull; omega
      | cons p rest => exact ⟨p, rest, rfl⟩
    unfold ttsInsert
    rw [mapSet_neg _ k v hmem]
    have hover : limit < ((p :: rest) ++ [(k, v)]).length := by
      simp at hfull ⊢
      omega
    rw [if_pos hover]
    rfl

/-- Witness for `tts_cache_capacity` at concrete inputs: inserting a
third key into a full two-entry cache evicts the oldest entry. -/
theorem tts_cache_capacity_witness :
    ttsInsert 2 [("a", [1]), ("b", [2])] "c" ([3] : List Nat) =
      [("b", [2]), ("c", [3])] :=
  (tts_cache_capacity 2 [("a", [1]), ("b", [2])] "c" [3] (by decide)).2
    (by decide) rfl (by decide)

theorem lookupKey_ttsInsert {β : Type} (limit : Nat) (c : List (String × β))
    (k : String) (v : β) (hl : 1 ≤ limit) (hcap : c.length ≤ limit)
    (hmiss : lookupKey c k = none) :
    lookupKey (ttsInsert limit c k v) k = some v := by
  have hmem := (lookupKey_none_iff_any c k).1 hmiss
  unfold ttsInsert
  rw [mapSet_neg c k v hmem]
  by_cases hover : limit < (c ++ [(k, v)]).length
  · rw [if_pos hover]
    have hfull : c.length = limit := by
      simp at hover
      omega
    obtain ⟨p, rest, rfl⟩ : ∃ p rest, c = p :: rest := by
      cases c with
      | nil => simp at hfull; omega
      | cons p rest => exact ⟨p, rest, rfl⟩
    have hrest : lookupKey rest k = none := by
      by_cases hp : p.1 = k
      · simp [lookupKey, hp] at hmiss
      · simpa [lookupKey, hp] using hmiss
    show lookupKey (rest ++ [(k, v)]) k = some v
    rw [lookupKey_append rest [(k, v)] k hrest]
    simp [lookupKey]
  · rw [if_neg hover]
    rw [lookupKey_append c [(k, v)] k hmiss]
    simp [lookupKey]

/-- `ALLOWED_VOICES` of the part_001 `/tts` handler. -/
def ALLOWED_VOICES : List String :=
  ["nova", "shimmer", "echo", "onyx", "fable", "alloy", "ash", "sage", "coral"]

/-- `VOICES` of the part_004 and server.js `/tts` handlers. -/
def VOICES : List String :=
  ["nova", "shimmer", "echo", "onyx", "fable", "alloy", "ash", "sage", "coral"]

/-- JavaScript `a || b` on an optional string (falsy: absent or empty). -/
def jsOr (a : Option String) (b : String) : String :=
  match a with
  | none => b
  | some s => if s = "" then b else s

/-- part_001: `String(voice || 'shimmer').toLowerCase()` filtered
through `ALLOWED_VOICES`, falling back to `'shimmer'`. -/
def resolveVoice1 (voice : Option String) : String :=
  let wanted := jsLower (jsOr voice "shimmer")
  if wanted ∈ ALLOWED_VOICES then wanted else "shimmer"

/-- part_004/server.js: `(voice || process.env.TTS_VOICE || 'sage')
.toLowerCase()` filtered through `VOICES`, falling back to `'sage'`. -/
def resolveVoice4 (voice envVoice : Option String) : String :=
  let requested := jsLower (jsOr voice (jsOr envVoice "sage"))
  if requested ∈ VOICES then requested else "sage"

/-- Response of the part_001 `/tts` handler (status and audio bytes). -/
structure TtsOut where
  status : Nat
  body : List Nat
deriving Repr, DecidableEq

/-- The part_001 `/tts`,`/api/tts` handler: text check, voice
resolution, cache lookup by content key, and on a miss one synthesis
call plus the bounded insert.  Returns the response, the new cache, and
the number of synthesis calls issued. -/
def ttsHandle (limit : Nat) (synth : String → String → List Nat)
    (cache : List (String × List Nat)) (text voice : Option String) :
    TtsOut × List (String × List Nat) × Nat :=
  match text with
  | none => (⟨400, []⟩, cache, 0)
  | some t =>
    if t = "" then (⟨400, []⟩, cache, 0)
    else
      let sv := resolveVoice1 voice
      let key := ttsKey t sv
      match lookupKey cache key with
      | some hit => (⟨200, hit⟩, cache, 0)
      | none =>
        let buf := synth t sv
        (⟨200, buf⟩, ttsInsert limit cache key buf, 1)

/-- Response of the server.js `/tts` handler: status and the fresh
media id behind the returned `audioUrl` (`/media/tts/:id`). -/
structure TtsUuidOut where
  status : Nat
  audioId : Option String
deriving Repr, DecidableEq

/-- The server.js `/tts`,`/api/tts` handler (lines 273-293): trims
`(text || '')`, resolves the voice through `VOICES`, then always calls
the synthesis vendor and stores the bytes in `mediaStore` under a fresh
UUID (`putMedia`).  There is no content-keyed lookup.  Returns the
response, the new store, and the number of synthesis calls issued. -/
def ttsHandleUuid (synth : String → String → List Nat) (envVoice : Option String)
    (store : List (String × List Nat)) (freshId : String)
    (text voice : Option String) : TtsUuidOut × List (String × List Nat) × Nat :=
  let input := jsTrim (jsOr text "")
  if input = "" then (⟨400, none⟩, store, 0)
  else
    let buf := synth input (resolveVoice4 voice envVoice)
    (⟨200, some freshId⟩, store ++ [(freshId, buf)], 1)

/-- Claim C6, counterexample: in the server.js `/tts` variant (one of
the claim's cited sources) a second request with identical text and
identical resolved voice, arriving while the first request's media
entry is still stored (well within its TTL, unevicted), still issues a
second synthesis call — the store is keyed by fresh UUIDs, not by
content, so nothing is served from cached bytes. -/
theorem tts_cache_hit_claim_counterexample :
    (ttsHandleUuid (fun _ _ => [7, 8]) none
        (ttsHandleUuid (fun _ _ => [7, 8]) none [] "id1" (some "hi") none).2.1
        "id2" (some "hi") none).2.2 = 1 ∧
    (ttsHandleUuid (fun _ _ => [7, 8]) none
        (ttsHandleUuid (fun _ _ => [7, 8]) none [] "id1" (some "hi") none).2.1
        "id2" (some "hi") none).2.2 ≠ 0 ∧
    lookupKey (ttsHandleUuid (fun _ _ => [7, 8]) none [] "id1"
        (some "hi") none).2.1 "id1" = some [7, 8] :=
  ⟨rfl, by decide, by decide⟩

/-- Claim C6, amended: in the content-hash-cached `/tts` variant
(part_001's ttsCache) two consecutive requests with the same text and
the same resolved voice, against a cache within capacity (limit at
least one), make the second request a cache hit: zero synthesis calls,
same bytes as the first response, status 200.  (That cache has no TTL;
the server.js variant, which stores audio only under fresh UUIDs,
re-synthesizes on every request.) -/
theorem tts_cache_hit_no_vendor_call (limit : Nat)
    (synth : String → String → List Nat) (cache : List (String × List Nat))
    (t : String) (v1 v2 : Option String)
    (hl : 1 ≤ limit) (ht : t ≠ "") (hv : resolveVoice1 v1 = resolveVoice1 v2)
    (hcap : cache.length ≤ limit) :
    (ttsHandle limit synth (ttsHandle limit synth cache (some t) v1).2.1
        (some t) v2).2.2 = 0 ∧
    (ttsHandle limit synth (ttsHandle limit synth cache (some t) v1).2.1
        (some t) v2).1.body = (ttsHandle limit synth cache (some t) v1).1.body ∧
    (ttsHandle limit synth (ttsHandle limit synth cache (some t) v1).2.1
        (some t) v2).1.status = 200 := by
  cases hlk : lookupKey cache (ttsKey t (resolveVoice1 v1)) with
  | some hit =>
    have h1 : ttsHandle limit synth cache (some t) v1 = (⟨200, hit⟩, cache, 0) := by
      simp [ttsHandle, ht, hlk]
    rw [h1]
    have hlk2 : lookupKey cache (ttsKey t (resolveVoice1 v2)) = some hit := by
      rw [← hv]
      exact hlk
    simp [ttsHandle, ht, hlk2]
  | none =>
    have h1 : ttsHandle limit synth cache (some t) v1 =
        (⟨200, synth t (resolveVoice1 v1)⟩,
          ttsInsert limit cache (ttsKey t (resolveVoice1 v1))
            (synth t (resolveVoice1 v1)), 1) := by
      simp [ttsHandle, ht, hlk]
    rw [h1]
    have hlk2 : lookupKey
        (ttsInsert limit cache (ttsKey t (resolveVoice1 v1))
          (synth t (resolveVoice1 v1)))
        (ttsKey t (resolveVoice1 v2)) = some (synth t (resolveVoice1 v1)) := by
      rw [← hv]
      exact lookupKey_ttsInsert limit cache _ _ hl hcap hlk
    simp [ttsHandle, ht, hlk2]

/-- Witness for `tts_cache_hit_no_vendor_call` at concrete inputs. -/
theorem tts_cache_hit_no_vendor_call_witness :
    (ttsHandle 1 (fun _ _ => [7, 8])
        (ttsHandle 1 (fun _ _ => [7, 8]) [] (some "hi") none).2.1
        (some "hi") (some "SHIMMER")).2.2 = 0 ∧
    (ttsHandle 1 (fun _ _ => [7, 8])
        (ttsHandle 1 (fun _ _ => [7, 8]) [] (some "hi") none).2.1
        (some "hi") (some "SHIMMER")).1.body =
      (ttsHandle 1 (fun _ _ => [7, 8]) [] (some "hi") none).1.body ∧
    (ttsHandle 1 (fun _ _ => [7, 8])
        (ttsHandle 1 (fun _ _ => [7, 8]) [] (some "hi") none).2.1
        (some "hi") (some "SHIMMER")).1.status = 200 :=
  tts_cache_hit_no_vendor_call 1 (fun _ _ => [7, 8]) [] "hi" none (some "SHIMMER")
    (by decide) (by decide) (by decide) (by decide)

/-- Claim C9: the voice identifier the `/tts` handlers hand to the
synthesis vendor is always drawn from the fixed allow-list; a request
whose (lowercased) voice is not in the list is not rejected but served
with the default voice. -/
theorem tts_voice_allowlist :
    (∀ v, resolveVoice1 v ∈ ALLOWED_VOICES) ∧
    (∀ s, jsLower s ∉ ALLOWED_VOICES → resolveVoice1 (some s) = "shimmer") ∧
    (∀ v e, resolveVoice4 v e ∈ VOICES) ∧
    (∀ s e, jsLower s ∉ VOICES → s ≠ "" → resolveVoice4 (some s) e = "sage") := by
  refine ⟨?_, ?_, ?_, ?_⟩
  · intro v
    unfold resolveVoice1
    by_cases h : jsLower (jsOr v "shimmer") ∈ ALLOWED_VOICES
    · rwa [if_pos h]
    · rw [if_neg h]
      decide
  · intro s hns
    unfold resolveVoice1
    by_cases hse : s = ""
    · subst hse
      decide
    · simp only [resolveVoice1, jsOr]
      rw [if_neg hse]
      rw [if_neg hns]
  · intro v e
    unfold resolveVoice4
    by_cases h : jsLower (jsOr v (jsOr e "sage")) ∈ VOICES
    · rwa [if_pos h]
    · rw [if_neg h]
      decide
  · intro s e hns hse
    simp only [resolveVoice4, jsOr]
    rw [if_neg hse]
    rw [if_neg hns]

/-- Witness for `tts_voice_allowlist` at concrete inputs. -/
theorem tts_voice_allowlist_witness :
    resolveVoice1 (some "robot") = "shimmer" ∧
    resolveVoice4 (some "Robot") none = "sage" :=
  ⟨tts_voice_allowlist.2.1 "robot" (by decide),
    tts_voice_allowlist.2.2.2 "Robot" none (by decide) (by decide)⟩

/-- `parseInt` on a digit string, over the character list. -/
def natOfDigits (l : List Char) : Nat :=
  l.foldl (fun n c => n * 10 + (c.toNat - 48)) 0

/-- Split a character list at every `'-'` (the unique way the anchored
regex `(\d*)-(\d*)` can apportion the remainder of the header). -/
def splitOnDash : List Char → List (List Char)
  | [] => [[]]
  | c :: rest =>
    if c = '-' then [] :: splitOnDash rest
    else
      match splitOnDash rest with
      | [] => [[c]]
      | grp :: groups => (c :: grp) :: groups

/-- The regex `/^bytes=(\d*)-(\d*)$/` of the media handler: `none` when
the header does not match; on a match, the two captured groups (`none`
for an empty group, which is falsy in the handler). -/
def parseRange (s : String) : Option (Option Nat × Option Nat) :=
  let l := s.data
  if l.take 6 = "bytes=".data then
    match splitOnDash (l.drop 6) with
    | [a, b] =>
      if a.all Char.isDigit && b.all Char.isDigit then
        some (if a.isEmpty then none else some (natOfDigits a),
          if b.isEmpty then none else some (natOfDigits b))
      else none
    | _ => none
  else none

/-- Response of `GET /media/tts/:id`: status, body bytes,
`Content-Length`, and `Content-Range` (`some (some (a, b), L)` stands
for `bytes a-b/L`, `some (none, L)` for `bytes */L`). -/
structure MediaResp where
  status : Nat
  body : List Nat
  contentLength : Option Nat
  contentRange : Option (Option (Nat × Nat) × Nat)
deriving Repr, DecidableEq

/-- The `GET /media/tts/:id` handler (part_002/part_004/server.js) for
a stored buffer: no Range or a malformed Range serves the whole body
with 200; a parsed Range is bounds-checked exactly as the JS does
(`start > end || start >= total` → 416, else 206 with the clamped
slice).  `start`/`end` are `Int`s, as in JS where `total - 1` can be
`-1`. -/
def mediaGet (buf : List Nat) (range : Option String) : MediaResp :=
  let total := buf.length
  match range with
  | none => ⟨200, buf, some total, none⟩
  | some r =>
    match parseRange r with
    | none => ⟨200, buf, some total, none⟩
    | some (a?, b?) =>
      let start : Int := ((a?.getD 0 : Nat) : Int)
      let stop : Int :=
        match b? with
        | some b => ((b : Nat) : Int)
        | none => (total : Int) - 1
      if start > stop ∨ start ≥ (total : Int) then
        ⟨416, [], none, some (none, total)⟩
      else
        let stop2 : Int := min stop ((total : Int) - 1)
        let s := start.toNat
        let e := stop2.toNat
        let chunk := (buf.drop s).take (e + 1 - s)
        ⟨206, chunk, some chunk.length, some (some (s, e), total)⟩

/-- Claim C8: for a well-formed `bytes=a-b` Range over a stored buffer,
`a ≤ b` and `a < length` yield 206 with exactly the bytes `a` through
`min b (length-1)`, the matching `Content-Range` and `Content-Length`;
`a > b` or `a ≥ length` yields 416 with `bytes */length` and no body. -/
theorem media_range_semantics (buf : List Nat) (r : String) (a b : Nat)
    (hp : parseRange r = some (some a, some b)) :
    (a ≤ b → a < buf.length →
      mediaGet buf (some r) =
        ⟨206, (buf.drop a).take (min b (buf.length - 1) + 1 - a),
          some (min b (buf.length - 1) + 1 - a),
          some (some (a, min b (buf.length - 1)), buf.length)⟩) ∧
    ((b < a ∨ buf.length ≤ a) →
      mediaGet buf (some r) = ⟨416, [], none, some (none, buf.length)⟩) := by
  constructor
  · intro hab haL
    have hcond : ¬ (((a : Nat) : Int) > ((b : Nat) : Int) ∨
        ((a : Nat) : Int) ≥ (buf.length : Int)) := by
      push_neg
      constructor <;> [exact_mod_cast hab; exact_mod_cast haL]
    simp only [mediaGet, hp, Option.getD]
    rw [if_neg hcond]
    have hL1 : 1 ≤ buf.length := by omega
    have hstop2 : min ((b : Nat) : Int) ((buf.length : Int) - 1) =
        ((min b (buf.length - 1) : Nat) : Int) := by
      have h1 : (buf.length : Int) - 1 = ((buf.length - 1 : Nat) : Int) := by
        omega
      rw [h1]
      exact (Nat.cast_min b (buf.length - 1)).symm
    rw [hstop2]
    have htn : ∀ n : Nat, ((n : Nat) : Int).toNat = n := fun n => by omega
    rw [htn, htn]
    have hlen : ((buf.drop a).take (min b (buf.length - 1) + 1 - a)).length =
        min b (buf.length - 1) + 1 - a := by
      rw [List.length_take, List.length_drop]
      omega
    rw [hlen]
  · intro hbad
    have hcond : ((a : Nat) : Int) > ((b : Nat) : Int) ∨
        ((a : Nat) : Int) ≥ (buf.length : Int) := by
      rcases hbad with h | h
      · left
        exact_mod_cast h
      · right
        exact_mod_cast h
    simp only [mediaGet, hp, Option.getD]
    rw [if_pos hcond]

/-- Witness for `media_range_semantics` at concrete inputs. -/
theorem media_range_semantics_witness :
    mediaGet [10, 20, 30, 40] (some "bytes=1-2") =
      ⟨206, [20, 30], some 2, some (some (1, 2), 4)⟩ :=
  (media_range_semantics [10, 20, 30, 40] "bytes=1-2" 1 2 (by decide)).1
    (by decide) (by decide)

/-- Claim C10: a Range header that does not match
`/^bytes=(\d*)-(\d*)$/` is ignored: the handler answers 200 with the
full body and the full `Content-Length`, not 416. -/
theorem media_range_malformed_full (buf : List Nat) (r : String)
    (hp : parseRange r = none) :
    mediaGet buf (some r) = ⟨200, buf, some buf.length, none⟩ := by
  simp [mediaGet, hp]

/-- Witness for `media_range_malformed_full` at concrete inputs. -/
theorem media_range_malformed_full_witness :
    mediaGet [10, 20] (some "bytes=0-1-2") = ⟨200, [10, 20], some 2, none⟩ :=
  media_range_malformed_full [10, 20] "bytes=0-1-2" (by decide)
